import Mathlib

/-!
Verification development for the route-scanning engine of
`playwright-route-tester` (project scanner, framework adapters, route
classifier).  JavaScript sources are embedded shallowly: pure string
transformations become Lean functions on `String`/`List Char`; the
regex-driven extractors take the sequence of regex matches (capture arrays)
as input; filesystem reads become explicit fields of a `Project` record, with
`Option` marking unreadable files and `Except` marking thrown exceptions.
All strings handled by the scanner are file paths and route literals; the
embedding of the JS regexes assumes the inputs contain no line-terminator
characters (`.` in a JS regex does not match them), which holds for every
input exercised here.
-/

/-- Does `p` occur as a prefix of `l`? -/
def prefixAt (p l : List Char) : Bool :=
  match p, l with
  | [], _ => true
  | _ :: _, [] => false
  | a :: p, b :: l => a = b ∧ prefixAt p l

/-- Does `p` occur as a contiguous sublist of `l`? -/
def includesChars (p : List Char) : List Char → Bool
  | [] => p.isEmpty
  | c :: rest => prefixAt p (c :: rest) ∨ includesChars p rest

/-- JS `a.includes(b)`: substring containment. -/
def includesStr (s pat : String) : Bool := includesChars pat.data s.data

/-- JS truthiness of a string: `""` is falsy, everything else truthy. -/
def truthy (s : String) : Bool := s ≠ ""

/-- JS `a || b` on (possibly missing) strings: `a` when present and truthy,
otherwise `b`. -/
def jsOr (a b : Option String) : Option String :=
  match a with
  | some s => if truthy s then some s else b
  | none => b

/-- JS `a.endsWith(b)`. -/
def endsWithStr (s suf : String) : Bool := prefixAt suf.data.reverse s.data.reverse

/-- JS `a.startsWith(b)`. -/
def startsWithStr (s pre : String) : Bool := prefixAt pre.data s.data

/-- JS `a.toUpperCase()` (ASCII, as all inputs here are). -/
def toUpperStr (s : String) : String := String.mk (s.data.map Char.toUpper)

/-- JS `a.toLowerCase()` (ASCII, as all inputs here are). -/
def toLowerStr (s : String) : String := String.mk (s.data.map Char.toLower)

/-- JS `url.split(sep)` for a one-character separator (empty pieces kept). -/
def splitAux (sep : Char) (acc : List Char) : List Char → List String
  | [] => [String.mk acc.reverse]
  | c :: rest =>
    if c = sep then String.mk acc.reverse :: splitAux sep [] rest
    else splitAux sep (c :: acc) rest

def splitChar (sep : Char) (s : String) : List String := splitAux sep [] s.data

/-- Collapse every run of repeated slashes to a single slash:
JS `url.replace(/\/+/g, '/')`. -/
def collapseGo : List Char → List Char
  | [] => []
  | [c] => [c]
  | a :: b :: rest =>
    if a = '/' ∧ b = '/' then collapseGo (b :: rest)
    else a :: collapseGo (b :: rest)

def collapseSlashes (s : String) : String := String.mk (collapseGo s.data)

/-- Remove route-group segments: JS `url.replace(/\(.*?\)/g, '')`.  One
left-to-right pass; the optional state holds the (reversed) characters
consumed since an open `(` whose lazy `.*?\)` match is still pending.  A
pending `(` is flushed verbatim when a line terminator or the end of input
is reached (`.` matches neither), exactly as the regex fails there; the
flushed characters contain no `)` or line terminator, so no match can start
inside them. -/
def removeGroupsAux : Option (List Char) → List Char → List Char
  | none, [] => []
  | some acc, [] => '(' :: acc.reverse
  | none, c :: rest =>
    if c = '(' then removeGroupsAux (some []) rest
    else c :: removeGroupsAux none rest
  | some acc, c :: rest =>
    if c = ')' then removeGroupsAux none rest
    else if c = '\n' ∨ c = '\r' then ('(' :: acc.reverse) ++ c :: removeGroupsAux none rest
    else removeGroupsAux (some (c :: acc)) rest

def removeGroups (s : String) : String := String.mk (removeGroupsAux none s.data)

/-- JS `\w` character class. -/
def isWordChar (c : Char) : Bool := c.isAlphanum ∨ c = '_'

/-- Pending state of the catch-all rewriter: between `[` and the third dot,
or collecting the (reversed) `\w+` run. -/
inductive CatchState where
  | dots (n : Nat)
  | word (acc : List Char)

/-- Flushed text of a failed catch-all candidate. -/
def catchFlush : CatchState → List Char
  | CatchState.dots n => '[' :: List.replicate n '.'
  | CatchState.word acc => '[' :: '.' :: '.' :: '.' :: acc.reverse

/-- Convert catch-all segments: JS `url.replace(/\[\.\.\.(\w+)\]/g, '*')`.
One left-to-right pass; on failure the candidate is flushed verbatim and the
failing character is re-examined (it may itself open a new candidate; the
flushed characters cannot, since a match must start with `[`). -/
def catchAux : Option CatchState → List Char → List Char
  | none, [] => []
  | some st, [] => catchFlush st
  | none, c :: rest =>
    if c = '[' then catchAux (some (CatchState.dots 0)) rest
    else c :: catchAux none rest
  | some (CatchState.dots n), c :: rest =>
    if c = '.' then
      catchAux (some (if n = 2 then CatchState.word [] else CatchState.dots (n + 1))) rest
    else if c = '[' then catchFlush (CatchState.dots n) ++ catchAux (some (CatchState.dots 0)) rest
    else catchFlush (CatchState.dots n) ++ c :: catchAux none rest
  | some (CatchState.word acc), c :: rest =>
    if isWordChar c then catchAux (some (CatchState.word (c :: acc))) rest
    else if c = ']' ∧ acc ≠ [] then '*' :: catchAux none rest
    else if c = '[' then catchFlush (CatchState.word acc) ++ catchAux (some (CatchState.dots 0)) rest
    else catchFlush (CatchState.word acc) ++ c :: catchAux none rest

def catchAllToStar (s : String) : String := String.mk (catchAux none s.data)

/-- Convert plain bracket segments: JS `url.replace(/\[(\w+)\]/g, ':$1')`.
Same one-pass scheme; the optional state is the (reversed) `\w+` run after a
pending `[`. -/
def bracketAux : Option (List Char) → List Char → List Char
  | none, [] => []
  | some acc, [] => '[' :: acc.reverse
  | none, c :: rest =>
    if c = '[' then bracketAux (some []) rest
    else c :: bracketAux none rest
  | some acc, c :: rest =>
    if isWordChar c then bracketAux (some (c :: acc)) rest
    else if c = ']' ∧ acc ≠ [] then (':' :: acc.reverse) ++ bracketAux none rest
    else if c = '[' then ('[' :: acc.reverse) ++ bracketAux (some []) rest
    else ('[' :: acc.reverse) ++ c :: bracketAux none rest

def bracketToParam (s : String) : String := String.mk (bracketAux none s.data)

/-- Strip the first matching suffix from a fixed list (the suffix lists used
here are mutually exclusive at the end of a string, so at most one member can
match, exactly as the anchored JS regexes behave). -/
def stripSuffixAny (sufs : List String) (s : String) : String :=
  match sufs.find? (fun suf => endsWithStr s suf) with
  | some suf => s.dropRight suf.length
  | none => s

/-- Suffixes matched by `\/(page|route)\.(js|jsx|ts|tsx)$`. -/
def pageRouteSuffixes : List String :=
  ["/page.js", "/page.jsx", "/page.ts", "/page.tsx",
   "/route.js", "/route.jsx", "/route.ts", "/route.tsx"]

/-- Suffixes matched by `\/page\.(js|jsx|ts|tsx)$` (scanner copy). -/
def pageOnlySuffixes : List String :=
  ["/page.js", "/page.jsx", "/page.ts", "/page.tsx"]

/-- Suffixes matched by `\.(js|jsx|ts|tsx)$`. -/
def extSuffixes : List String := [".js", ".jsx", ".ts", ".tsx"]

/-- JS `url.replace(/\/index$/, '')`. -/
def stripSlashIndex (s : String) : String :=
  if endsWithStr s "/index" then s.dropRight 6 else s

/-- JS `url.replace(/\/$/, '')`: strip one trailing slash. -/
def stripOneTrailingSlash (s : String) : String :=
  if endsWithStr s "/" then s.dropRight 1 else s

/-- JS `filePath.replace(/\\/g, '/')`: Windows separators to slashes. -/
def backslashToSlash (s : String) : String :=
  String.mk (s.data.map (fun c => if c = '\\' then '/' else c))

namespace Nextjs

/-- Embedding of `NextjsFramework.convertAppRouterPathToUrl` (src/core/frameworks/nextjs.js).
The method chain applies to `filePath` alone; the leading `'/'` is
concatenated to the fully rewritten string afterwards, and `|| '/'` fires
only if that concatenation is empty (it never is). -/
def convertAppRouterPathToUrl (filePath : String) : String :=
  let s := stripSuffixAny pageRouteSuffixes filePath
  let s := removeGroups s
  let s := catchAllToStar s
  let s := bracketToParam s
  let s := collapseSlashes s
  let s := stripOneTrailingSlash s
  let r := "/" ++ s
  if r = "" then "/" else r

/-- Embedding of `NextjsFramework.convertPagesRouterPathToUrl` (src/core/frameworks/nextjs.js). -/
def convertPagesRouterPathToUrl (filePath : String) : String :=
  let s := stripSuffixAny extSuffixes filePath
  let s := stripSlashIndex s
  let s := catchAllToStar s
  let s := bracketToParam s
  let s := collapseSlashes s
  let s := stripOneTrailingSlash s
  let r := "/" ++ s
  if r = "" then "/" else r

end Nextjs

/-! ## Route data model

A JS route object is a dynamic record; the fields that carry classification
logic are embedded here.  Inert metadata fields (`framework`, `type`,
`component`, `note`) are never read by any decision in the scanner and are
omitted.  A missing JS field is `none`. -/

/-- Raw route produced by the Express extractor. -/
structure RawRoute where
  url : String
  method : String
  title : String
  file : String
deriving Repr, DecidableEq

/-- Raw route produced by the React extractor and the generic scanner
(before classification). -/
structure SimpleRoute where
  url : String
  title : String
  file : Option String := none
deriving Repr, DecidableEq

/-- A classified route as pushed into a bucket. -/
structure ClassifiedRoute where
  url : String
  title : String
  method : Option String := none
  file : Option String := none
  requiresAuth : Option Bool := none
  expectedRedirect : Option String := none
  expectedStatus : Option Nat := none
deriving Repr, DecidableEq

/-- The three-bucket route collection `{ public: [], protected: [], api: [] }`.
`protected` is a Lean keyword, so the fields carry an `R` suffix. -/
structure RouteSet where
  publicR : List ClassifiedRoute
  protectedR : List ClassifiedRoute
  apiR : List ClassifiedRoute
deriving Repr, DecidableEq

def emptyRouteSet : RouteSet := { publicR := [], protectedR := [], apiR := [] }

def getTotalRoutes (rs : RouteSet) : Nat :=
  rs.publicR.length + rs.protectedR.length + rs.apiR.length

/-- JS `path.join(a, b)` for the simple two-segment joins used by the
adapters. -/
def pathJoin (a b : String) : String := a ++ "/" ++ b

namespace Express

/-- Embedding of `ExpressFramework.isApiEndpoint`. -/
def isApiEndpoint (url : String) : Bool :=
  ["/api/", "/v1/", "/v2/", "/graphql", "/webhook",
   "/rest/", "/service/", "/data/"].any (fun pat => includesStr url pat)

/-- Embedding of `ExpressFramework.isProtectedRoute`: slash-prefixed keyword list, note it
contains `/auth`. -/
def isProtectedRoute (url : String) : Bool :=
  ["/admin", "/dashboard", "/profile", "/settings", "/account",
   "/user", "/management", "/private", "/secure", "/auth"].any
    (fun pat => includesStr (toLowerStr url) (toLowerStr pat))

/-- Embedding of `ExpressFramework.requiresAuthentication`. -/
def requiresAuthentication (url : String) : Bool :=
  if startsWithStr url "/api" then
    ¬ (["/api/health", "/api/status", "/api/public"].any (fun pat => includesStr url pat))
  else isProtectedRoute url

/-- Capitalize one URL segment, with the dynamic-segment (`:x`) special case,
as in `generateRouteTitle`. -/
def capSeg (seg : String) : String :=
  if startsWithStr seg ":" then
    toUpperStr ((seg.drop 1).take 1) ++ seg.drop 2
  else toUpperStr (seg.take 1) ++ seg.drop 1

/-- Embedding of `ExpressFramework.generateRouteTitle`. -/
def generateRouteTitle (url : String) : String :=
  if url = "/" then "Home Page"
  else String.intercalate " " (((splitChar '/' url).filter (fun s => s ≠ "")).map capSeg)

/-- Embedding of `ExpressFramework.normalizeExpressRoutePath`.  `null` is `none`.  The two
identity rewrites of the source (`:\w+` to the same text, first `*` to `*`)
are omitted as written identities; `\$.*$` removes everything from the first
`$` on, and `\^` removes the first `^`. -/
def dropFromDollar (s : String) : String := String.mk (s.data.takeWhile (fun c => c ≠ '$'))

def removeFirstCaret : List Char → List Char
  | [] => []
  | c :: rest => if c = '^' then rest else c :: removeFirstCaret rest

def normalizeExpressRoutePath (routePath : String) : Option String :=
  if routePath = "" then none
  else
    let url := routePath
    let url := dropFromDollar url
    let url := String.mk (removeFirstCaret url.data)
    let url := collapseSlashes url
    let url := if startsWithStr url "/" then url else "/" ++ url
    let url := if url ≠ "/" ∧ endsWithStr url "/" then url.dropRight 1 else url
    let url := if url = "" ∨ url = "//" then "/" else url
    some url

/-- The found-set key `` `${method}:${normalizedPath}` ``. -/
def routeKey (method url : String) : String := method ++ ":" ++ url

/-- The capture-dispatch on `match.length` (lines 103-116): a regex match is
its JS match array (element 0 the full match, the rest the capture groups);
a 4-element array is `variable.method(path)`, a 3-element one has its slot
layout decided by the truthiness of slot 2, anything else leaves method and
path unset (`none`, for undefined). -/
def parseMatch (m : List String) : Option (String × String) :=
  if m.length = 4 then some (m.getD 2 "", m.getD 3 "")
  else if m.length = 3 then
    (if truthy (m.getD 2 "") then some (m.getD 2 "", m.getD 1 "")
     else some (m.getD 1 "", m.getD 2 ""))
  else none

/-- One iteration of the match loop in `extractExpressRoutes` (lines
100-142), over the match-array sequence; state is (found-set, routes so
far). -/
def extractStep (filename : String) (st : List String × List RawRoute)
    (m : List String) : List String × List RawRoute :=
  match parseMatch m with
  | some (method0, routePath) =>
    if ¬ truthy routePath ∨ ¬ truthy method0 then st
    else
      let method := toUpperStr method0
      match normalizeExpressRoutePath routePath with
      | none => st
      | some normalizedPath =>
        if method = "USE" ∧ ¬ startsWithStr routePath "/api" ∧ ¬ includesStr routePath "/" then st
        else
          let key := routeKey method normalizedPath
          if key ∈ st.1 then st
          else
            (key :: st.1,
             st.2 ++ [{ url := normalizedPath,
                        method := if method = "USE" then "GET" else method,
                        title := generateRouteTitle normalizedPath,
                        file := filename }])
  | none => st

/-- Embedding of `ExpressFramework.extractExpressRoutes`, over the sequence of regex
matches the route patterns produce on the file content, in match order
(the found-set lives inside this per-file call). -/
def extractExpressRoutes (filename : String) (ms : List (List String)) :
    List RawRoute :=
  (ms.foldl (extractStep filename) ([], [])).2

/-- Embedding of `ExpressFramework.categorizeExpressRoute`. -/
def categorizeExpressRoute (route : RawRoute) (routes : RouteSet) : RouteSet :=
  let isApiRoute := startsWithStr route.url "/api" ∨ route.method ≠ "GET" ∨ isApiEndpoint route.url
  if isApiRoute then
    { routes with apiR := routes.apiR ++
        [{ url := route.url, title := route.title, method := some route.method,
           file := some route.file,
           requiresAuth := some (requiresAuthentication route.url),
           expectedStatus := some (if requiresAuthentication route.url then 401 else 200) }] }
  else if isProtectedRoute route.url then
    { routes with protectedR := routes.protectedR ++
        [{ url := route.url, title := route.title, method := some route.method,
           file := some route.file,
           requiresAuth := some true, expectedRedirect := some "/login" }] }
  else
    { routes with publicR := routes.publicR ++
        [{ url := route.url, title := route.title, method := some route.method,
           file := some route.file, expectedStatus := some 200 }] }

/-- Embedding of `ExpressFramework.addDefaultExpressRoutes`: three public, two protected
and three api routes, where the default login API route has
`requiresAuth: false`. -/
def addDefaultExpressRoutes (routes : RouteSet) : RouteSet :=
  { routes with
    publicR := routes.publicR ++
      [{ url := "/", title := "Home Page", method := some "GET", expectedStatus := some 200 },
       { url := "/about", title := "About Page", method := some "GET", expectedStatus := some 200 },
       { url := "/contact", title := "Contact Page", method := some "GET", expectedStatus := some 200 }],
    protectedR := routes.protectedR ++
      [{ url := "/dashboard", title := "Dashboard", method := some "GET",
         requiresAuth := some true, expectedRedirect := some "/login" },
       { url := "/admin", title := "Admin Panel", method := some "GET",
         requiresAuth := some true, expectedRedirect := some "/login" }],
    apiR := routes.apiR ++
      [{ url := "/api/users", title := "Users API", method := some "GET",
         requiresAuth := some true, expectedStatus := some 401 },
       { url := "/api/posts", title := "Posts API", method := some "GET",
         requiresAuth := some true, expectedStatus := some 401 },
       { url := "/api/auth/login", title := "Login API", method := some "POST",
         requiresAuth := some false, expectedStatus := some 200 }] }

/-- Per-file body of the loop in `ExpressFramework.scanRoutes`: an unreadable
file (`none`) is skipped by the `catch`, a readable one contributes its
extracted routes through `categorizeExpressRoute`. -/
def scanFile (routes : RouteSet) (file : String × Option (List (List String))) : RouteSet :=
  match file.2 with
  | none => routes
  | some ms =>
    (extractExpressRoutes file.1 ms).foldl (fun rs r => categorizeExpressRoute r rs) routes

/-- Embedding of `ExpressFramework.scanRoutes` over the glob result, each file given with
its route-pattern matches (`none` = unreadable). -/
def scanRoutes (files : List (String × Option (List (List String)))) : RouteSet :=
  let routes := files.foldl scanFile emptyRouteSet
  if getTotalRoutes routes = 0 then addDefaultExpressRoutes routes else routes

end Express

namespace React

/-- Embedding of `ReactFramework.isProtectedRoute`: note the list carries `/protected`
where the other adapters have `/auth`. -/
def isProtectedRoute (url : String) : Bool :=
  ["/dashboard", "/admin", "/profile", "/settings", "/account",
   "/user", "/management", "/private", "/secure", "/protected"].any
    (fun pat => includesStr (toLowerStr url) (toLowerStr pat))

/-- Embedding of `ReactFramework.generateRouteTitle` (adds a `Page` suffix). -/
def generateRouteTitle (url : String) : String :=
  if url = "/" then "Home Page"
  else String.intercalate " " (((splitChar '/' url).filter (fun s => s ≠ "")).map Express.capSeg)
       ++ " Page"

/-- Embedding of `ReactFramework.extractRoutesFromFile`, over the path literals its route
patterns match in the file content, in match order.  (The `component` field
it also computes is never read downstream and is omitted.) -/
def extractRoutesFromFile (content : List String) (filename : String) : List SimpleRoute :=
  content.map (fun p => { url := p, title := generateRouteTitle p, file := some filename })

/-- Embedding of `ReactFramework.categorizeRoute`: protected routes get the hardcoded
redirect `/login`. -/
def categorizeRoute (route : SimpleRoute) (routes : RouteSet) : RouteSet :=
  if isProtectedRoute route.url then
    { routes with protectedR := routes.protectedR ++
        [{ url := route.url, title := route.title, file := route.file,
           requiresAuth := some true, expectedRedirect := some "/login" }] }
  else
    { routes with publicR := routes.publicR ++
        [{ url := route.url, title := route.title, file := route.file,
           expectedStatus := some 200 }] }

/-- Embedding of `ReactFramework.addDefaultRoutes`: three public, three protected, two
api routes. -/
def addDefaultRoutes (routes : RouteSet) : RouteSet :=
  { routes with
    publicR := routes.publicR ++
      [{ url := "/", title := "Home Page", expectedStatus := some 200 },
       { url := "/about", title := "About Page", expectedStatus := some 200 },
       { url := "/contact", title := "Contact Page", expectedStatus := some 200 }],
    protectedR := routes.protectedR ++
      [{ url := "/dashboard", title := "Dashboard",
         requiresAuth := some true, expectedRedirect := some "/login" },
       { url := "/profile", title := "Profile Page",
         requiresAuth := some true, expectedRedirect := some "/login" },
       { url := "/settings", title := "Settings Page",
         requiresAuth := some true, expectedRedirect := some "/login" }],
    apiR := routes.apiR ++
      [{ url := "/api/users", title := "Users API", method := some "GET",
         requiresAuth := some true, expectedStatus := some 401 },
       { url := "/api/products", title := "Products API", method := some "GET",
         requiresAuth := some true, expectedStatus := some 401 }] }

/-- Insertion step of `scanRouterRoutes`: the found-set (keyed by URL alone)
is consulted before categorization. -/
def insertRoute (st : List String × RouteSet) (r : SimpleRoute) : List String × RouteSet :=
  if r.url ∈ st.1 then st else (r.url :: st.1, categorizeRoute r st.2)

/-- Per-file body of the loop in `scanRouterRoutes`; an unreadable file
(`none`) is skipped by the `catch`.  The found-set is threaded across
files. -/
def scanFile (st : List String × RouteSet) (file : String × Option (List String)) :
    List String × RouteSet :=
  match file.2 with
  | none => st
  | some content => (extractRoutesFromFile content file.1).foldl insertRoute st

/-- Embedding of `ReactFramework.scanRouterRoutes` over the `src` glob result (each file
given with the path literals its patterns match; `none` = unreadable).
Returns without scanning when the `src` directory is absent; injects the
defaults when the found-set stayed empty. -/
def scanRouterRoutes (hasSrcDir : Bool) (files : List (String × Option (List String))) :
    RouteSet :=
  if ¬ hasSrcDir then emptyRouteSet
  else
    let st := files.foldl scanFile ([], emptyRouteSet)
    if st.1 = [] then addDefaultRoutes st.2 else st.2

/-- Embedding of `ReactFramework.scanRoutes`: router projects scan files, router-less
projects fall back to the default set (`scanGenericReactRoutes`). -/
def scanRoutes (routerType : Option String) (hasSrcDir : Bool)
    (files : List (String × Option (List String))) : RouteSet :=
  match routerType with
  | some _ => scanRouterRoutes hasSrcDir files
  | none => addDefaultRoutes emptyRouteSet

end React

namespace Nextjs

/-- Embedding of `NextjsFramework.isProtectedRoute` (same list as Express, with `/auth`,
but ordered dashboard-first). -/
def isProtectedRoute (url : String) : Bool :=
  ["/dashboard", "/admin", "/profile", "/settings", "/account",
   "/user", "/management", "/private", "/secure", "/auth"].any
    (fun pat => includesStr (toLowerStr url) (toLowerStr pat))

/-- Embedding of `NextjsFramework.generateRouteTitle` (adds a `Page` suffix). -/
def generateRouteTitle (url : String) : String :=
  if url = "/" then "Home Page"
  else String.intercalate " " (((splitChar '/' url).filter (fun s => s ≠ "")).map Express.capSeg)
       ++ " Page"

/-- Per-page-file body of `scanAppRouter`. -/
def appPageStep (appDir : String) (routes : RouteSet) (file : String) : RouteSet :=
  let routePath := convertAppRouterPathToUrl file
  if isProtectedRoute routePath then
    { routes with protectedR := routes.protectedR ++
        [{ url := routePath, title := generateRouteTitle routePath,
           file := some (pathJoin appDir file),
           requiresAuth := some true, expectedRedirect := some "/login" }] }
  else
    { routes with publicR := routes.publicR ++
        [{ url := routePath, title := generateRouteTitle routePath,
           file := some (pathJoin appDir file), expectedStatus := some 200 }] }

/-- Per-route-file body of `scanAppRouter` (API routes). -/
def appRouteStep (appDir : String) (routes : RouteSet) (file : String) : RouteSet :=
  let routePath := convertAppRouterPathToUrl file
  { routes with apiR := routes.apiR ++
      [{ url := routePath, title := generateRouteTitle routePath,
         method := some "GET", file := some (pathJoin appDir file),
         requiresAuth := some true, expectedStatus := some 401 }] }

/-- Embedding of `NextjsFramework.scanAppRouter`, over the two glob results. -/
def scanAppRouter (projectPath : String) (routes : RouteSet)
    (pageFiles routeFiles : List String) : RouteSet :=
  let appDir := pathJoin projectPath "app"
  let routes := pageFiles.foldl (appPageStep appDir) routes
  routeFiles.foldl (appRouteStep appDir) routes

/-- Per-file body of `scanPagesRouter`. -/
def pagesFileStep (pagesDir : String) (routes : RouteSet) (file : String) : RouteSet :=
  let routePath := convertPagesRouterPathToUrl file
  if startsWithStr file "api/" then
    { routes with apiR := routes.apiR ++
        [{ url := routePath, title := generateRouteTitle routePath,
           method := some "GET", file := some (pathJoin pagesDir file),
           requiresAuth := some true, expectedStatus := some 401 }] }
  else if isProtectedRoute routePath then
    { routes with protectedR := routes.protectedR ++
        [{ url := routePath, title := generateRouteTitle routePath,
           file := some (pathJoin pagesDir file),
           requiresAuth := some true, expectedRedirect := some "/login" }] }
  else
    { routes with publicR := routes.publicR ++
        [{ url := routePath, title := generateRouteTitle routePath,
           file := some (pathJoin pagesDir file), expectedStatus := some 200 }] }

/-- Embedding of `NextjsFramework.scanPagesRouter` over the `pages` glob result
(`hasPagesDir` is the `fs.pathExists(pagesDir)` guard). -/
def scanPagesRouter (projectPath : String) (hasPagesDir : Bool) (routes : RouteSet)
    (files : List String) : RouteSet :=
  if ¬ hasPagesDir then routes
  else files.foldl (pagesFileStep (pathJoin projectPath "pages")) routes

/-- Embedding of `NextjsFramework.scanRoutes`: note there is no default-route injection
for Next.js projects. -/
def scanRoutes (projectPath : String) (hasAppRouter hasPagesRouter : Bool)
    (appPageFiles appRouteFiles pagesFiles : List String) : RouteSet :=
  let routes := emptyRouteSet
  let routes :=
    if hasAppRouter then scanAppRouter projectPath routes appPageFiles appRouteFiles
    else routes
  if hasPagesRouter then scanPagesRouter projectPath hasPagesRouter routes pagesFiles
  else routes

end Nextjs

namespace Scanner

/-! Embedding of `ProjectScanner` (core/scanner.js).  Filesystem state is a
`Project` record: glob results are lists of relative paths, file contents are
the match lists the relevant regexes produce on them (`none` = unreadable),
and the manifest is `none` (absent) / `some none` (present but unparsable,
where `fs.readJson` throws) / `some (some pj)` (parsed). -/

/-- Parsed `package.json` content used by the scanner. -/
structure PackageJson where
  dependencies : List (String × String) := []
  devDependencies : List (String × String) := []
  scripts : List (String × String) := []
deriving Repr, DecidableEq

def lookupStr (l : List (String × String)) (k : String) : Option String :=
  (l.find? (fun p => p.1 = k)).map (fun p => p.2)

/-- Lookup in the merged dependency object
`{ ...dependencies, ...devDependencies }` (dev wins), with JS truthiness:
an empty-string version behaves like an absent dependency. -/
def dep (pj : PackageJson) (k : String) : Option String :=
  jsOr (lookupStr pj.devDependencies k) (lookupStr pj.dependencies k)

/-- The framework value assembled by `detectFramework`; only the fields read
downstream are kept. -/
structure Framework where
  name : String
  version : Option String := none
  hasAppRouter : Bool := false
  hasPagesRouter : Bool := false
deriving Repr, DecidableEq

/-- The scanned project: manifest, relevant directory-existence flags and the
glob/read results each adapter consumes. -/
structure Project where
  projectPath : String := "."
  manifest : Option (Option PackageJson) := none
  hasAppDir : Bool := false
  hasPagesDir : Bool := false
  hasIndexHtml : Bool := false
  hasPublicDir : Bool := false
  hasSrcDir : Bool := false
  hasApiDir : Bool := false
  expressFiles : List (String × Option (List (List String))) := []
  reactSrcFiles : List (String × Option (List String)) := []
  appPageFiles : List String := []
  appRouteFiles : List String := []
  pagesFiles : List String := []
  htmlFiles : List String := []
  componentFiles : List String := []
  genericGlobError : Bool := false
  authScanFiles : List (String × Option String) := []
deriving Repr

/-- Embedding of `ProjectScanner.detectStaticFramework`. -/
def detectStaticFramework (proj : Project) : Framework :=
  if proj.hasIndexHtml ∨ proj.hasPublicDir ∨ proj.hasSrcDir then { name := "static-site" }
  else { name := "unknown" }

/-- Embedding of `this.packageJson.scripts?.start?.includes('react-scripts')`. -/
def startScriptMentionsReactScripts (pj : PackageJson) : Bool :=
  match lookupStr pj.scripts "start" with
  | some s => includesStr s "react-scripts"
  | none => false

/-- Embedding of `ProjectScanner.detectFramework`: the fixed priority chain over the
merged dependency set. -/
def detectFramework (pj? : Option PackageJson) (proj : Project) : Framework :=
  match pj? with
  | none => detectStaticFramework proj
  | some pj =>
    if (dep pj "next").isSome then
      { name := "nextjs", version := dep pj "next",
        hasAppRouter := proj.hasAppDir, hasPagesRouter := proj.hasPagesDir }
    else if (dep pj "react-router-dom").isSome ∨ (dep pj "@reach/router").isSome then
      { name := "react-router",
        version := jsOr (dep pj "react-router-dom") (dep pj "@reach/router") }
    else if (dep pj "vue-router").isSome then
      { name := "vue-router", version := dep pj "vue-router" }
    else if (dep pj "express").isSome then
      { name := "express", version := dep pj "express" }
    else if (dep pj "nuxt").isSome ∨ (dep pj "@nuxt/core").isSome ∨ (dep pj "@nuxt/kit").isSome then
      { name := "nuxt",
        version := jsOr (jsOr (dep pj "nuxt") (dep pj "@nuxt/core")) (dep pj "@nuxt/kit") }
    else if (dep pj "vite").isSome ∧ (dep pj "react").isSome then
      { name := "vite-react", version := dep pj "vite" }
    else if (dep pj "react-scripts").isSome ∨ startScriptMentionsReactScripts pj then
      { name := "create-react-app", version := jsOr (dep pj "react-scripts") (dep pj "react") }
    else if (dep pj "react").isSome then { name := "react", version := dep pj "react" }
    else if (dep pj "vue").isSome then { name := "vue", version := dep pj "vue" }
    else detectStaticFramework proj

/-- Embedding of `ProjectScanner.isProtectedRoute`: nine slash-prefixed keywords; neither
`/auth` nor `/protected` is present. -/
def isProtectedRoute (url : String) : Bool :=
  ["/dashboard", "/admin", "/profile", "/settings", "/account",
   "/user", "/management", "/private", "/secure"].any
    (fun pat => includesStr (toLowerStr url) (toLowerStr pat))

/-- Login-URL hit predicate of `detectLoginUrl` (case-sensitive,
slash-prefixed). -/
def loginHit (r : ClassifiedRoute) : Bool :=
  ["/login", "/signin", "/auth", "/authenticate"].any (fun pat => includesStr r.url pat)

/-- Embedding of `ProjectScanner.detectLoginUrl`: first hit in the public bucket, then in
the protected bucket, else `/login`. -/
def detectLoginUrl (rs : RouteSet) : String :=
  match rs.publicR.find? loginHit with
  | some r => r.url
  | none =>
    match rs.protectedR.find? loginHit with
    | some r => r.url
    | none => "/login"

/-- Embedding of `ProjectScanner.generateRouteTitle` (no dynamic-segment handling; empty
result falls back to `Home Page`). -/
def generateRouteTitle (url : String) : String :=
  let t := String.intercalate " "
    (((splitChar '/' url).filter (fun s => s ≠ "")).map
      (fun seg => toUpperStr (seg.take 1) ++ seg.drop 1))
  if t = "" then "Home Page" else t

/-- Loop body of `ProjectScanner.categorizeRoutes`: note `detectLoginUrl` is
re-evaluated against the buckets as they have grown so far. -/
def categorizeStep (rs : RouteSet) (r : SimpleRoute) : RouteSet :=
  if isProtectedRoute r.url then
    { rs with protectedR := rs.protectedR ++
        [{ url := r.url, title := r.title, file := r.file,
           requiresAuth := some true, expectedRedirect := some (detectLoginUrl rs) }] }
  else
    { rs with publicR := rs.publicR ++
        [{ url := r.url, title := r.title, file := r.file,
           expectedStatus := some 200 }] }

/-- Embedding of `ProjectScanner.categorizeRoutes`. -/
def categorizeRoutes (rs : RouteSet) (routes : List SimpleRoute) : RouteSet :=
  routes.foldl categorizeStep rs

/-- Characters after the last occurrence of `p` in `l` (none ⇒ whole list):
the greedy JS rewrite `replace(/^.*\/pages\//, '')`. -/
def afterLastAux (p : List Char) : List Char → Option (List Char)
  | [] => none
  | c :: rest =>
    match afterLastAux p rest with
    | some r => some r
    | none => if prefixAt p (c :: rest) then some ((c :: rest).drop p.length) else none

def afterLast (pat : String) (s : String) : String :=
  String.mk ((afterLastAux pat.data s.data).getD s.data)

/-- JS `file.replace(/\.html$/, '')`. -/
def stripHtmlExt (s : String) : String :=
  if endsWithStr s ".html" then s.dropRight 5 else s

/-- Route built for an HTML file in `scanGenericRoutes`. -/
def htmlRoute (file : String) : SimpleRoute :=
  let routePath := "/" ++ stripSlashIndex (stripHtmlExt file)
  { url := if routePath = "" then "/" else routePath,
    title := generateRouteTitle (if routePath = "" then "/" else routePath),
    file := some file }

/-- Route built for a `pages/` component file in `scanGenericRoutes`. -/
def componentRoute (file : String) : SimpleRoute :=
  let routePath := "/" ++ stripSlashIndex (stripSuffixAny extSuffixes (afterLast "/pages/" file))
  { url := if routePath = "" then "/" else routePath,
    title := generateRouteTitle (if routePath = "" then "/" else routePath),
    file := some file }

/-- Embedding of `ProjectScanner.scanGenericRoutes`: html and component discovery, the
no-routes default, the catch-all fallback, and the api-directory health
route (pushed without `requiresAuth`/`expectedStatus`). -/
def scanGenericRoutes (proj : Project) : RouteSet :=
  let routes : List SimpleRoute :=
    if proj.genericGlobError then
      [{ url := "/", title := "Home Page" }]
    else
      let found := proj.htmlFiles.map htmlRoute ++ proj.componentFiles.map componentRoute
      if found = [] then [{ url := "/", title := "Home Page" }] else found
  let routeSet := categorizeRoutes emptyRouteSet routes
  if proj.hasApiDir then
    { routeSet with apiR := routeSet.apiR ++
        [{ url := "/api/health", title := "Health Check", method := some "GET" }] }
  else routeSet

/-- The router type `ReactFramework` ends up with when dispatched from the
scanner: the scanner presets it from the detected framework name, and
`detect()` overwrites it only when a `react` dependency is present. -/
def computeRouterType (fwName : String) (pj? : Option PackageJson) : Option String :=
  let rt0 : Option String := if fwName = "react-router" then some "react-router-dom" else none
  match pj? with
  | none => rt0
  | some pj =>
    if (dep pj "react").isNone then rt0
    else if (dep pj "react-router-dom").isSome then some "react-router-dom"
    else if (dep pj "@reach/router").isSome then some "reach-router"
    else rt0

/-- The `switch` in `ProjectScanner.scanRoutes`: nextjs/react/express get
their adapters, everything else (vue-router, nuxt, static-site, unknown,
vite-react, create-react-app, vue, ...) falls to generic scanning. -/
def scanRoutesDispatch (fw : Framework) (pj? : Option PackageJson) (proj : Project) : RouteSet :=
  if fw.name = "nextjs" then
    Nextjs.scanRoutes proj.projectPath proj.hasAppDir proj.hasPagesDir
      proj.appPageFiles proj.appRouteFiles proj.pagesFiles
  else if fw.name = "react" ∨ fw.name = "react-router" then
    React.scanRoutes (computeRouterType fw.name pj?) proj.hasSrcDir proj.reactSrcFiles
  else if fw.name = "express" then
    Express.scanRoutes proj.expressFiles
  else scanGenericRoutes proj

/-- Embedding of `ProjectScanner.hasAuthPatterns`. -/
def hasAuthPatterns (content : String) : Bool :=
  ["useAuth", "AuthProvider", "withAuth", "requireAuth",
   "isAuthenticated", "checkAuth", "login", "logout",
   "jwt", "token", "session"].any
    (fun pat => includesStr (toLowerStr content) (toLowerStr pat))

/-- Embedding of `ProjectScanner.detectAuthPatterns`: scans `src` files (per-file read
failures skipped) but mutates nothing; its result is unused by `scan`. -/
def detectAuthPatterns (files : List (String × Option String)) : Bool :=
  files.any (fun f =>
    match f.2 with
    | some content => hasAuthPatterns content
    | none => false)

/-- Embedding of `ProjectScanner.detectBaseUrl`. -/
def detectBaseUrl (pj? : Option PackageJson) : String :=
  match pj? with
  | none => "http://localhost:3000"
  | some pj =>
    match jsOr (lookupStr pj.scripts "dev") (lookupStr pj.scripts "start") with
    | some s =>
      if includesStr s "3000" then "http://localhost:3000"
      else if includesStr s "8080" then "http://localhost:8080"
      else if includesStr s "5173" then "http://localhost:5173"
      else "http://localhost:3000"
    | none => "http://localhost:3000"

structure Config where
  baseURL : String
  loginURL : String
  framework : Framework
  timeout : Nat
  projectPath : String
deriving Repr, DecidableEq

structure ScanResult where
  framework : Framework
  routes : RouteSet
  config : Config
deriving Repr

/-- Embedding of `ProjectScanner.generateConfig`. -/
def generateConfig (pj? : Option PackageJson) (routes : RouteSet) (fw : Framework)
    (projectPath : String) : Config :=
  { baseURL := detectBaseUrl pj?, loginURL := detectLoginUrl routes,
    framework := fw, timeout := 30000, projectPath := projectPath }

/-- Embedding of `ProjectScanner.loadPackageJson`: an absent manifest is skipped, but a
present-yet-unparsable one makes `fs.readJson` throw, and there is no
`try`/`catch` around it. -/
def loadPackageJson (proj : Project) : Except String (Option PackageJson) :=
  match proj.manifest with
  | none => Except.ok none
  | some none => Except.error "fs.readJson: invalid package.json"
  | some (some pj) => Except.ok (some pj)

/-- Embedding of `ProjectScanner.scan`: load manifest, detect framework, scan routes,
  scan auth patterns (no-op on the result), emit config. -/
def scan (proj : Project) : Except String ScanResult := do
  let pj? ← loadPackageJson proj
  let fw := detectFramework pj? proj
  let routes := scanRoutesDispatch fw pj? proj
  let _ := detectAuthPatterns proj.authScanFiles
  pure { framework := fw, routes := routes,
         config := generateConfig pj? routes fw proj.projectPath }

/-- The scanner's own `convertAppRouterPathToUrl` (the duplicate in
core/scanner.js): here the slash-collapse and trailing-slash strip are
applied after the leading `/` is prepended, and only page files (not route
files) are stripped. -/
def convertAppRouterPathToUrl (filePath : String) : String :=
  let s := backslashToSlash filePath
  let s := stripSuffixAny pageOnlySuffixes s
  let s := removeGroups s
  let s := catchAllToStar s
  let s := bracketToParam s
  let u := "/" ++ s
  let u := collapseSlashes u
  let u := stripOneTrailingSlash u
  if u = "" then "/" else u

/-- The scanner's own `convertPagesRouterPathToUrl` (duplicate in
core/scanner.js), with collapse/trailing-strip after the prepend. -/
def convertPagesRouterPathToUrl (filePath : String) : String :=
  let s := backslashToSlash filePath
  let s := stripSuffixAny extSuffixes s
  let s := stripSlashIndex s
  let s := catchAllToStar s
  let s := bracketToParam s
  let u := "/" ++ s
  let u := collapseSlashes u
  let u := stripOneTrailingSlash u
  if u = "" then "/" else u

end Scanner

/-! ## Bucket invariants and helper lemmas -/

/-- Shape of a protected-bucket entry: `requiresAuth = true`, an
`expectedRedirect`, and no `expectedStatus`. -/
def protInvB (r : ClassifiedRoute) : Bool :=
  (r.requiresAuth == some true) && r.expectedRedirect.isSome && (r.expectedStatus == none)

/-- Shape of an api-bucket entry: an `expectedStatus` and no
`expectedRedirect` (the `requiresAuth` value is not constrained). -/
def apiInvB (r : ClassifiedRoute) : Bool :=
  r.expectedStatus.isSome && (r.expectedRedirect == none)

/-- The protected and api buckets have the documented field shapes. -/
def routeSetInvB (rs : RouteSet) : Bool :=
  rs.protectedR.all protInvB && rs.apiR.all apiInvB

/-- The protected bucket alone has the documented field shape. -/
def protAllB (rs : RouteSet) : Bool := rs.protectedR.all protInvB

/-- Two extracted routes may agree on both method and url only if that
method is `GET` (the `use`-downgrade collision). -/
def rrGetOnly (a b : RawRoute) : Prop :=
  a.method = b.method → a.url = b.url → a.method = "GET"

/-- Invariant of the extraction fold: emitted routes are pairwise
`rrGetOnly`, and every non-`GET` route has its (original-method) key in the
found-set. -/
def extractInv (found : List String) (rs : List RawRoute) : Prop :=
  List.Pairwise rrGetOnly rs ∧
  ∀ r ∈ rs, r.method ≠ "GET" → Express.routeKey r.method r.url ∈ found

/-- The urls of every route in every bucket, in bucket order. -/
def urlsOf (rs : RouteSet) : List String :=
  (rs.publicR ++ rs.protectedR ++ rs.apiR).map (fun r => r.url)

/-- Invariant of the react scan fold: bucket urls are distinct and all
recorded in the found-set. -/
def nodupInv (st : List String × RouteSet) : Prop :=
  (urlsOf st.2).Nodup ∧ ∀ u ∈ urlsOf st.2, u ∈ st.1

/-! ## Concrete inputs referenced by several results -/

def bucketCounts (rs : RouteSet) : Nat × Nat × Nat :=
  (rs.publicR.length, rs.protectedR.length, rs.apiR.length)

def expressLoginRoute : RawRoute :=
  { url := "/api/auth/login", method := "POST",
    title := "Api Auth Login", file := "server.js" }

def apiDirProject : Scanner.Project := { hasApiDir := true }

def brokenManifestProject : Scanner.Project := { manifest := some none }

theorem foldl_pres {α β : Type} {P : β → Prop} {f : β → α → β}
    (hf : ∀ b a, P b → P (f b a)) :
    ∀ (l : List α) (b : β), P b → P (l.foldl f b) := by
  intro l
  induction l with
  | nil => intro b hb; exact hb
  | cons a l ih => intro b hb; exact ih _ (hf b a hb)

theorem express_categorize_inv (r : RawRoute) (rs : RouteSet)
    (h : routeSetInvB rs = true) :
    routeSetInvB (Express.categorizeExpressRoute r rs) = true := by
  simp only [Express.categorizeExpressRoute]
  simp only [routeSetInvB, Bool.and_eq_true] at h
  split
  · simp [routeSetInvB, List.all_append, h.1, h.2, apiInvB]
  · split
    · simp [routeSetInvB, List.all_append, h.1, h.2, protInvB]
    · simp [routeSetInvB, h.1, h.2]

theorem express_scanFile_inv (rs : RouteSet) (f : String × Option (List (List String)))
    (h : routeSetInvB rs = true) : routeSetInvB (Express.scanFile rs f) = true := by
  unfold Express.scanFile
  match f with
  | (fn, none) => exact h
  | (fn, some ms) =>
    exact foldl_pres (P := fun rs => routeSetInvB rs = true)
      (fun b a hb => express_categorize_inv a b hb) _ rs h

theorem express_defaults_inv (rs : RouteSet) (h : routeSetInvB rs = true) :
    routeSetInvB (Express.addDefaultExpressRoutes rs) = true := by
  unfold Express.addDefaultExpressRoutes
  simp only [routeSetInvB, Bool.and_eq_true] at h
  simp [routeSetInvB, List.all_append, h.1, h.2, protInvB, apiInvB]

theorem express_scanRoutes_inv (files : List (String × Option (List (List String)))) :
    routeSetInvB (Express.scanRoutes files) = true := by
  simp only [Express.scanRoutes]
  have hbase : routeSetInvB emptyRouteSet = true := by decide
  have hfold := foldl_pres (P := fun rs => routeSetInvB rs = true)
    express_scanFile_inv files emptyRouteSet hbase
  split
  · exact express_defaults_inv _ hfold
  · exact hfold

theorem react_categorize_inv (r : SimpleRoute) (rs : RouteSet)
    (h : routeSetInvB rs = true) :
    routeSetInvB (React.categorizeRoute r rs) = true := by
  simp only [React.categorizeRoute]
  simp only [routeSetInvB, Bool.and_eq_true] at h
  split
  · simp [routeSetInvB, List.all_append, h.1, h.2, protInvB]
  · simp [routeSetInvB, h.1, h.2]

theorem react_defaults_inv (rs : RouteSet) (h : routeSetInvB rs = true) :
    routeSetInvB (React.addDefaultRoutes rs) = true := by
  unfold React.addDefaultRoutes
  simp only [routeSetInvB, Bool.and_eq_true] at h
  simp [routeSetInvB, List.all_append, h.1, h.2, protInvB, apiInvB]

theorem react_insert_routeinv (st : List String × RouteSet) (r : SimpleRoute)
    (h : routeSetInvB st.2 = true) : routeSetInvB (React.insertRoute st r).2 = true := by
  unfold React.insertRoute
  split
  · exact h
  · exact react_categorize_inv r st.2 h

theorem react_scanFile_routeinv (st : List String × RouteSet)
    (f : String × Option (List String))
    (h : routeSetInvB st.2 = true) : routeSetInvB (React.scanFile st f).2 = true := by
  unfold React.scanFile
  match f with
  | (fn, none) => exact h
  | (fn, some content) =>
    exact foldl_pres (P := fun st => routeSetInvB st.2 = true)
      (fun b a hb => react_insert_routeinv b a hb) _ st h

theorem react_scanRouterRoutes_inv (hs : Bool) (files : List (String × Option (List String))) :
    routeSetInvB (React.scanRouterRoutes hs files) = true := by
  simp only [React.scanRouterRoutes]
  split
  · decide
  · have hbase : routeSetInvB (([], emptyRouteSet) : List String × RouteSet).2 = true := by decide
    have hfold := foldl_pres (P := fun st => routeSetInvB st.2 = true)
      react_scanFile_routeinv files ([], emptyRouteSet) hbase
    split
    · exact react_defaults_inv _ hfold
    · exact hfold

theorem react_scanRoutes_inv (rt : Option String) (hs : Bool)
    (files : List (String × Option (List String))) :
    routeSetInvB (React.scanRoutes rt hs files) = true := by
  unfold React.scanRoutes
  match rt with
  | some t => exact react_scanRouterRoutes_inv hs files
  | none => exact react_defaults_inv emptyRouteSet (by decide)

theorem nextjs_appPage_inv (appDir : String) (rs : RouteSet) (f : String)
    (h : routeSetInvB rs = true) : routeSetInvB (Nextjs.appPageStep appDir rs f) = true := by
  simp only [Nextjs.appPageStep]
  simp only [routeSetInvB, Bool.and_eq_true] at h
  split
  · simp [routeSetInvB, List.all_append, h.1, h.2, protInvB]
  · simp [routeSetInvB, h.1, h.2]

theorem nextjs_appRoute_inv (appDir : String) (rs : RouteSet) (f : String)
    (h : routeSetInvB rs = true) : routeSetInvB (Nextjs.appRouteStep appDir rs f) = true := by
  simp only [Nextjs.appRouteStep]
  simp only [routeSetInvB, Bool.and_eq_true] at h
  simp [routeSetInvB, List.all_append, h.1, h.2, apiInvB]

theorem nextjs_pagesFile_inv (pagesDir : String) (rs : RouteSet) (f : String)
    (h : routeSetInvB rs = true) : routeSetInvB (Nextjs.pagesFileStep pagesDir rs f) = true := by
  simp only [Nextjs.pagesFileStep]
  simp only [routeSetInvB, Bool.and_eq_true] at h
  split
  · simp [routeSetInvB, List.all_append, h.1, h.2, apiInvB]
  · split
    · simp [routeSetInvB, List.all_append, h.1, h.2, protInvB]
    · simp [routeSetInvB, h.1, h.2]

theorem nextjs_scanRoutes_inv (pp : String) (ha hp : Bool)
    (apf arf pf : List String) :
    routeSetInvB (Nextjs.scanRoutes pp ha hp apf arf pf) = true := by
  have hbase : routeSetInvB emptyRouteSet = true := by decide
  have happ : ∀ rs, routeSetInvB rs = true →
      routeSetInvB (Nextjs.scanAppRouter pp rs apf arf) = true := by
    intro rs hrs
    simp only [Nextjs.scanAppRouter]
    exact foldl_pres (P := fun rs => routeSetInvB rs = true)
      (fun b a hb => nextjs_appRoute_inv _ b a hb) arf _
      (foldl_pres (P := fun rs => routeSetInvB rs = true)
        (fun b a hb => nextjs_appPage_inv _ b a hb) apf rs hrs)
  have hpag : ∀ rs, routeSetInvB rs = true →
      routeSetInvB (Nextjs.scanPagesRouter pp hp rs pf) = true := by
    intro rs hrs
    simp only [Nextjs.scanPagesRouter]
    split
    · exact hrs
    · exact foldl_pres (P := fun rs => routeSetInvB rs = true)
        (fun b a hb => nextjs_pagesFile_inv _ b a hb) pf rs hrs
  have hmid : routeSetInvB
      (if ha then Nextjs.scanAppRouter pp emptyRouteSet apf arf else emptyRouteSet) = true := by
    split
    · exact happ _ hbase
    · exact hbase
  simp only [Nextjs.scanRoutes]
  split
  · exact hpag _ hmid
  · exact hmid

theorem scanner_categorizeStep_prot (rs : RouteSet) (r : SimpleRoute)
    (h : protAllB rs = true) : protAllB (Scanner.categorizeStep rs r) = true := by
  simp only [Scanner.categorizeStep]
  split
  · simp only [protAllB] at h
    simp [protAllB, List.all_append, h, protInvB]
  · simpa [protAllB] using h

theorem scanner_generic_prot (proj : Scanner.Project) :
    protAllB (Scanner.scanGenericRoutes proj) = true := by
  simp only [Scanner.scanGenericRoutes]
  have hcat : protAllB (Scanner.categorizeRoutes emptyRouteSet
      (if proj.genericGlobError then [{ url := "/", title := "Home Page" }]
       else
        let found := proj.htmlFiles.map Scanner.htmlRoute ++
          proj.componentFiles.map Scanner.componentRoute
        if found = [] then [{ url := "/", title := "Home Page" }] else found)) = true := by
    exact foldl_pres (P := fun rs => protAllB rs = true)
      scanner_categorizeStep_prot _ emptyRouteSet (by decide)
  split
  · simpa [protAllB] using hcat
  · exact hcat

/-! ## Dedup machinery -/

theorem extractStep_inv (fn : String) (st : List String × List RawRoute) (m : List String)
    (h : extractInv st.1 st.2) :
    extractInv (Express.extractStep fn st m).1 (Express.extractStep fn st m).2 := by
  simp only [Express.extractStep]
  split
  · next method0 routePath heq =>
    split
    · exact h
    · split
      · exact h
      · next normalizedPath hnorm =>
        split
        · exact h
        · split
          · exact h
          · next hkey =>
            constructor
            · rw [List.pairwise_append]
              refine ⟨h.1, by simp [List.Pairwise], ?_⟩
              intro a ha b hb
              simp only [List.mem_singleton] at hb
              subst hb
              intro hm hu
              by_contra hne
              have hk := h.2 a ha hne
              by_cases hM : toUpperStr method0 = "USE"
              · exact hne (by rw [hm]; simp [hM])
              · have ham : a.method = toUpperStr method0 := by rw [hm]; simp [hM]
                rw [ham, hu] at hk
                exact hkey hk
            · intro r hr hrm
              rcases List.mem_append.mp hr with hold | hnew
              · exact List.mem_cons_of_mem _ (h.2 r hold hrm)
              · simp only [List.mem_singleton] at hnew
                subst hnew
                by_cases hM : toUpperStr method0 = "USE"
                · exact absurd (by simp [hM]) hrm
                · have : Express.routeKey
                      (if toUpperStr method0 = "USE" then "GET" else toUpperStr method0)
                      normalizedPath =
                      Express.routeKey (toUpperStr method0) normalizedPath := by simp [hM]
                  rw [this]
                  exact List.mem_cons_self _ _
  · exact h

theorem extract_pairwise (fn : String) (ms : List (List String)) :
    List.Pairwise rrGetOnly (Express.extractExpressRoutes fn ms) := by
  have h := foldl_pres (P := fun st : List String × List RawRoute => extractInv st.1 st.2)
    (fun b a hb => extractStep_inv fn b a hb) ms ([], [])
    ⟨List.Pairwise.nil, by simp⟩
  exact h.1

theorem urlsOf_react_categorize (r : SimpleRoute) (rs : RouteSet) :
    (urlsOf (React.categorizeRoute r rs)).Perm (r.url :: urlsOf rs) := by
  simp only [React.categorizeRoute]
  split
  · have hp : ((rs.publicR.map (fun x => x.url) ++ rs.protectedR.map (fun x => x.url)) ++
        r.url :: rs.apiR.map (fun x => x.url)).Perm
        (r.url :: ((rs.publicR.map (fun x => x.url) ++ rs.protectedR.map (fun x => x.url)) ++
          rs.apiR.map (fun x => x.url))) := List.perm_middle
    simpa [urlsOf, List.append_assoc] using hp
  · have hp : (rs.publicR.map (fun x => x.url) ++
        r.url :: (rs.protectedR.map (fun x => x.url) ++ rs.apiR.map (fun x => x.url))).Perm
        (r.url :: (rs.publicR.map (fun x => x.url) ++
          (rs.protectedR.map (fun x => x.url) ++ rs.apiR.map (fun x => x.url)))) := List.perm_middle
    simpa [urlsOf, List.append_assoc] using hp

theorem react_insert_nodup (st : List String × RouteSet) (r : SimpleRoute)
    (h : nodupInv st) : nodupInv (React.insertRoute st r) := by
  simp only [React.insertRoute]
  split
  · exact h
  · next hnot =>
    have hperm := urlsOf_react_categorize r st.2
    constructor
    · refine (hperm.symm).nodup ?_
      rw [List.nodup_cons]
      exact ⟨fun hmem => hnot (h.2 _ hmem), h.1⟩
    · intro u hu
      have hmem : u ∈ r.url :: urlsOf st.2 := hperm.mem_iff.mp hu
      rcases List.mem_cons.mp hmem with heq | htl
      · exact heq ▸ List.mem_cons_self _ _
      · exact List.mem_cons_of_mem _ (h.2 u htl)

theorem react_scanFile_nodup (st : List String × RouteSet)
    (f : String × Option (List String)) (h : nodupInv st) :
    nodupInv (React.scanFile st f) := by
  simp only [React.scanFile]
  match f with
  | (fn, none) => exact h
  | (fn, some content) =>
    exact foldl_pres (P := nodupInv) (fun b a hb => react_insert_nodup b a hb) _ st h

theorem react_scanRouterRoutes_nodup (hs : Bool)
    (files : List (String × Option (List String))) :
    (urlsOf (React.scanRouterRoutes hs files)).Nodup := by
  simp only [React.scanRouterRoutes]
  split
  · simp [urlsOf, emptyRouteSet]
  · have hinv := foldl_pres (P := nodupInv) react_scanFile_nodup files ([], emptyRouteSet)
      ⟨by simp [urlsOf, emptyRouteSet], by simp [urlsOf, emptyRouteSet]⟩
    split
    · next hempty =>
      have hurls : urlsOf (List.foldl React.scanFile ([], emptyRouteSet) files).2 = [] := by
        refine List.eq_nil_iff_forall_not_mem.mpr (fun u hu => ?_)
        have := hinv.2 u hu
        rw [hempty] at this
        simp at this
      have hsets := List.append_eq_nil.mp (List.map_eq_nil_iff.mp hurls)
      have hsets2 := List.append_eq_nil.mp hsets.1
      have hempty2 : (List.foldl React.scanFile ([], emptyRouteSet) files).2 = emptyRouteSet := by
        cases hrs : (List.foldl React.scanFile ([], emptyRouteSet) files).2
        rw [hrs] at hsets hsets2
        simp only [emptyRouteSet]
        simp_all
      rw [hempty2]
      decide
    · exact hinv.1

theorem express_scanRoutes_total_pos (files : List (String × Option (List (List String)))) :
    0 < getTotalRoutes (Express.scanRoutes files) := by
  simp only [Express.scanRoutes]
  split
  · simp [Express.addDefaultExpressRoutes, getTotalRoutes]
  · next hne => exact Nat.pos_of_ne_zero hne

theorem detectLoginUrl_eq_find (rs : RouteSet) :
    Scanner.detectLoginUrl rs =
      ((((rs.publicR ++ rs.protectedR).find? Scanner.loginHit).map
        (fun r => r.url)).getD "/login") := by
  simp only [Scanner.detectLoginUrl, List.find?_append]
  cases rs.publicR.find? Scanner.loginHit <;>
    cases rs.protectedR.find? Scanner.loginHit <;> simp [Option.or]

/-! ## Claims -/

/-- C1: the claim says every canonical URL starts with `/`, never contains
`//`, and a grouped app-router page at `(dashboard)/settings/page.tsx`
normalizes to `/settings`.  The shipped
`NextjsFramework.convertAppRouterPathToUrl` instead returns `//settings`
(the leading slash is prepended only after the slash-collapse), violating
its own `Clean up multiple slashes` comment; the scanner's duplicate
implementation returns `/settings` as documented. -/
theorem c1_normalizer_emits_double_slash :
    Nextjs.convertAppRouterPathToUrl "(dashboard)/settings/page.tsx" = "//settings" ∧
    includesStr (Nextjs.convertAppRouterPathToUrl "(dashboard)/settings/page.tsx") "//" = true ∧
    Scanner.convertAppRouterPathToUrl "(dashboard)/settings/page.tsx" = "/settings" := by
  decide

/-- C2: the claim says both normalizers are idempotent on every input.  For
the realistic app-router input `about/page.tsx` the first application yields
`/about` but the second yields `//about` (and likewise for the pages
router), because the leading slash is prepended after the slash-collapse. -/
theorem c2_normalizer_not_idempotent :
    Nextjs.convertAppRouterPathToUrl "about/page.tsx" = "/about" ∧
    Nextjs.convertAppRouterPathToUrl (Nextjs.convertAppRouterPathToUrl "about/page.tsx") = "//about" ∧
    Nextjs.convertAppRouterPathToUrl (Nextjs.convertAppRouterPathToUrl "about/page.tsx") ≠
      Nextjs.convertAppRouterPathToUrl "about/page.tsx" ∧
    Nextjs.convertPagesRouterPathToUrl "about.js" = "/about" ∧
    Nextjs.convertPagesRouterPathToUrl (Nextjs.convertPagesRouterPathToUrl "about.js") = "//about" := by
  decide

/-- C3 counterexample: the default-injected Express api bucket contains
`/api/auth/login` with `requiresAuth = false`, so not every api-bucket route
has `requiresAuth = true`. -/
theorem c3_counterexample :
    ((Express.addDefaultExpressRoutes emptyRouteSet).apiR.filter
      (fun r => r.url == "/api/auth/login")).map (fun r => r.requiresAuth) =
      [some false] := by decide

/-- C3 amended: protected-bucket routes always carry `requiresAuth = true`,
an `expectedRedirect` and no `expectedStatus`; api-bucket routes always
carry an `expectedStatus` and no `expectedRedirect` (their `requiresAuth`
may be `false`); the generic scanner's injected `/api/health` route carries
neither field. -/
theorem c3_amended :
    (∀ efiles, routeSetInvB (Express.scanRoutes efiles) = true) ∧
    (∀ rt hs rfiles, routeSetInvB (React.scanRoutes rt hs rfiles) = true) ∧
    (∀ pp ha hp apf arf pf, routeSetInvB (Nextjs.scanRoutes pp ha hp apf arf pf) = true) ∧
    (∀ proj, protAllB (Scanner.scanGenericRoutes proj) = true) ∧
    ((Scanner.scanGenericRoutes apiDirProject).apiR.map
      (fun r => (r.url, r.requiresAuth, r.expectedRedirect, r.expectedStatus)) =
      [("/api/health", none, none, none)]) ∧
    ((Express.categorizeExpressRoute
        { url := "/api/health/db", method := "GET", title := "Health Db", file := "app.js" }
        emptyRouteSet).apiR.map (fun r => (r.requiresAuth, r.expectedStatus)) =
      [(some false, some 200)]) ∧
    Express.requiresAuthentication "/api/health/db" = false := by
  exact ⟨express_scanRoutes_inv, react_scanRoutes_inv, nextjs_scanRoutes_inv,
    scanner_generic_prot, by decide, by decide, by decide⟩

/-- C4 counterexample: the Express adapter's injected default set has two
protected routes, not three. -/
theorem c4_counterexample :
    (Express.scanRoutes []).protectedR.length = 2 ∧
    ¬ (Express.scanRoutes []).protectedR.length = 3 := by decide

/-- C4 amended: default injection is per-adapter — Express injects
3 public / 2 protected / 3 api (and always returns a non-empty RouteSet),
React injects 3 / 3 / 2, the generic scanner injects a single public home
route plus an api health route only when an api directory exists, and the
Next.js adapter injects nothing (its RouteSet can be empty). -/
theorem c4_amended :
    (∀ efiles, 0 < getTotalRoutes (Express.scanRoutes efiles)) ∧
    bucketCounts (Express.scanRoutes []) = (3, 2, 3) ∧
    bucketCounts (React.scanRoutes (some "react-router-dom") true []) = (3, 3, 2) ∧
    bucketCounts (React.scanRoutes none true []) = (3, 3, 2) ∧
    bucketCounts (Scanner.scanGenericRoutes {}) = (1, 0, 0) ∧
    bucketCounts (Scanner.scanGenericRoutes apiDirProject) = (1, 0, 1) ∧
    Nextjs.scanRoutes "." true true [] [] [] = emptyRouteSet := by
  refine ⟨express_scanRoutes_total_pos, ?_, ?_, ?_, ?_, ?_, ?_⟩ <;> decide

/-- C5 counterexample: the Express found-set lives inside the per-file
extractor, so the same `GET /about` registration in two different files
produces two public-bucket entries with the same (method, url) key. -/
theorem c5_counterexample :
    (Express.scanRoutes
      [("routes/a.js", some [["db.get", "db", "get", "/about"]]),
       ("routes/b.js", some [["db.get", "db", "get", "/about"]])]).publicR.map
      (fun r => (r.method, r.url)) =
      [(some "GET", "/about"), (some "GET", "/about")] := by decide

/-- C5 amended: cross-file deduplication holds for the React adapter, whose
found-set (keyed by URL alone) is threaded across files: no URL ever appears
twice in its final RouteSet.  The Express adapter deduplicates only within a
single file. -/
theorem c5_amended (hs : Bool) (files : List (String × Option (List String))) :
    (urlsOf (React.scanRouterRoutes hs files)).Nodup :=
  react_scanRouterRoutes_nodup hs files

/-- C6 counterexample: the React adapter's keyword list has `/protected` in
place of `/auth`, so the route `/auth` — which the claim says must land in
the protected bucket — is classified public. -/
theorem c6_counterexample :
    (React.categorizeRoute { url := "/auth", title := "Auth Page" } emptyRouteSet).protectedR = [] ∧
    ((React.categorizeRoute { url := "/auth", title := "Auth Page" } emptyRouteSet).publicR.map
      (fun r => (r.url, r.expectedStatus))) = [("/auth", some 200)] ∧
    React.isProtectedRoute "/auth" = false := by decide

/-- C6 amended: protected classification matches slash-prefixed keywords,
case-insensitively, and the keyword lists differ per classifier: the
scanner's list has nine keywords (no `auth` keyword at all), React has
`/protected` in place of `/auth`, while the Express and Next.js adapters
both keep `/auth`.  Only the scanner's `categorizeRoutes` uses the inferred
login URL (first hit in the public bucket then the protected bucket for a
URL containing one of `/login`, `/signin`, `/auth`, `/authenticate`,
default `/login`); the React, Express and Next.js adapters all hardcode
`/login`. -/
theorem c6_amended :
    (∀ u : String, Scanner.isProtectedRoute u =
      (["/dashboard", "/admin", "/profile", "/settings", "/account",
        "/user", "/management", "/private", "/secure"].any
        (fun kw => includesStr (toLowerStr u) (toLowerStr kw)))) ∧
    (∀ u : String, React.isProtectedRoute u =
      (["/dashboard", "/admin", "/profile", "/settings", "/account",
        "/user", "/management", "/private", "/secure", "/protected"].any
        (fun kw => includesStr (toLowerStr u) (toLowerStr kw)))) ∧
    (∀ u : String, Express.isProtectedRoute u =
      (["/admin", "/dashboard", "/profile", "/settings", "/account",
        "/user", "/management", "/private", "/secure", "/auth"].any
        (fun kw => includesStr (toLowerStr u) (toLowerStr kw)))) ∧
    (∀ (r : SimpleRoute) (rs : RouteSet), Scanner.isProtectedRoute r.url = true →
      Scanner.categorizeStep rs r =
        { rs with protectedR := rs.protectedR ++
            [{ url := r.url, title := r.title, file := r.file,
               requiresAuth := some true,
               expectedRedirect := some (Scanner.detectLoginUrl rs) }] }) ∧
    (∀ (r : SimpleRoute) (rs : RouteSet), Scanner.isProtectedRoute r.url = false →
      Scanner.categorizeStep rs r =
        { rs with publicR := rs.publicR ++
            [{ url := r.url, title := r.title, file := r.file,
               expectedStatus := some 200 }] }) ∧
    (∀ (r : SimpleRoute) (rs : RouteSet), React.isProtectedRoute r.url = true →
      React.categorizeRoute r rs =
        { rs with protectedR := rs.protectedR ++
            [{ url := r.url, title := r.title, file := r.file,
               requiresAuth := some true, expectedRedirect := some "/login" }] }) ∧
    (∀ rs, Scanner.detectLoginUrl rs =
      ((((rs.publicR ++ rs.protectedR).find? Scanner.loginHit).map
        (fun r => r.url)).getD "/login")) ∧
    (∀ r : ClassifiedRoute, Scanner.loginHit r =
      (["/login", "/signin", "/auth", "/authenticate"].any
        (fun kw => includesStr r.url kw))) ∧
    (∀ u : String, Nextjs.isProtectedRoute u =
      (["/dashboard", "/admin", "/profile", "/settings", "/account",
        "/user", "/management", "/private", "/secure", "/auth"].any
        (fun kw => includesStr (toLowerStr u) (toLowerStr kw)))) ∧
    (∀ (appDir f : String) (rs : RouteSet),
      Nextjs.isProtectedRoute (Nextjs.convertAppRouterPathToUrl f) = true →
      Nextjs.appPageStep appDir rs f =
        { rs with protectedR := rs.protectedR ++
            [{ url := Nextjs.convertAppRouterPathToUrl f,
               title := Nextjs.generateRouteTitle (Nextjs.convertAppRouterPathToUrl f),
               file := some (pathJoin appDir f),
               requiresAuth := some true, expectedRedirect := some "/login" }] }) := by
  refine ⟨fun u => rfl, fun u => rfl, fun u => rfl, ?_, ?_, ?_,
    detectLoginUrl_eq_find, fun r => rfl, fun u => rfl, ?_⟩
  · intro r rs h; simp [Scanner.categorizeStep, h]
  · intro r rs h; simp [Scanner.categorizeStep, h]
  · intro r rs h; simp [React.categorizeRoute, h]
  · intro appDir f rs h; simp [Nextjs.appPageStep, h]

/-- C6 witness: instantiating the amended step characterizations at
concrete protected routes, for the scanner's generic classifier and the
Next.js adapter. -/
theorem c6_witness :
    (Scanner.categorizeStep emptyRouteSet { url := "/dashboard", title := "Dashboard" } =
      { emptyRouteSet with protectedR :=
          [{ url := "/dashboard", title := "Dashboard", file := none,
             requiresAuth := some true, expectedRedirect := some "/login" }] }) ∧
    (Nextjs.appPageStep "proj/app" emptyRouteSet "auth/page.tsx" =
      { emptyRouteSet with protectedR :=
          [{ url := "/auth", title := "Auth Page", file := some "proj/app/auth/page.tsx",
             requiresAuth := some true, expectedRedirect := some "/login" }] }) := by
  constructor
  · have h := c6_amended.2.2.2.1 { url := "/dashboard", title := "Dashboard" }
      emptyRouteSet (by decide)
    simpa [Scanner.detectLoginUrl, emptyRouteSet] using h
  · obtain ⟨-, -, -, -, -, -, -, -, -, hnext⟩ := c6_amended
    have h := hnext "proj/app" "auth/page.tsx" emptyRouteSet (by decide)
    simpa [emptyRouteSet, pathJoin] using h

/-- C7: `POST /api/auth/login` is classified api (the API rule fires before
the protected-keyword rule even though `Express.isProtectedRoute` would have
matched the `/auth` keyword), with `requiresAuth = true` and
`expectedStatus = 401` because the URL is not on the
health/status/public allow-list. -/
theorem c7_api_rule_beats_protected_keywords :
    ((Express.categorizeExpressRoute expressLoginRoute emptyRouteSet).apiR.map
      (fun r => (r.url, r.method, r.requiresAuth, r.expectedStatus, r.expectedRedirect)) =
      [("/api/auth/login", some "POST", some true, some 401, none)]) ∧
    (Express.categorizeExpressRoute expressLoginRoute emptyRouteSet).publicR = [] ∧
    (Express.categorizeExpressRoute expressLoginRoute emptyRouteSet).protectedR = [] ∧
    Express.requiresAuthentication "/api/auth/login" = true ∧
    Express.isProtectedRoute "/api/auth/login" = true := by decide

/-- C8: a pages-router file `api/users/[id]` with any recognised extension
canonicalizes to `/api/users/:id` and lands in the api bucket with
`requiresAuth = true` and `expectedStatus = 401`. -/
theorem c8_pages_api_dynamic_route :
    Nextjs.convertPagesRouterPathToUrl "api/users/[id].js" = "/api/users/:id" ∧
    Nextjs.convertPagesRouterPathToUrl "api/users/[id].jsx" = "/api/users/:id" ∧
    Nextjs.convertPagesRouterPathToUrl "api/users/[id].ts" = "/api/users/:id" ∧
    Nextjs.convertPagesRouterPathToUrl "api/users/[id].tsx" = "/api/users/:id" ∧
    ((Nextjs.scanPagesRouter "." true emptyRouteSet ["api/users/[id].ts"]).apiR.map
      (fun r => (r.url, r.method, r.requiresAuth, r.expectedStatus, r.expectedRedirect)) =
      [("/api/users/:id", some "GET", some true, some 401, none)]) ∧
    (Nextjs.scanPagesRouter "." true emptyRouteSet ["api/users/[id].ts"]).publicR = [] ∧
    (Nextjs.scanPagesRouter "." true emptyRouteSet ["api/users/[id].ts"]).protectedR = [] := by
  decide

/-- C9 counterexample: a present-but-unparsable `package.json` makes
`fs.readJson` throw inside `loadPackageJson`, which has no `try`/`catch`,
so `scan()` rejects instead of degrading. -/
theorem c9_counterexample :
    (Scanner.scan brokenManifestProject).isOk = false := by decide

/-- C9 amended: `scan()` completes for every project whose manifest, when
present, parses (a missing manifest degrades the framework and scanning
proceeds), and an unreadable per-route source file contributes no routes
(the Express per-file `catch` drops it without affecting the rest of the
scan). -/
theorem c9_amended :
    (∀ proj : Scanner.Project, proj.manifest ≠ some none →
      (Scanner.scan proj).isOk = true) ∧
    (∀ (n : String) fs, Express.scanRoutes ((n, none) :: fs) = Express.scanRoutes fs) := by
  constructor
  · intro proj h
    match hm : proj.manifest with
    | none => simp [Scanner.scan, Scanner.loadPackageJson, hm, Except.isOk, Except.toBool]
    | some none => exact absurd hm h
    | some (some pj) => simp [Scanner.scan, Scanner.loadPackageJson, hm, Except.isOk, Except.toBool]
  · intro n fs
    simp [Express.scanRoutes, Express.scanFile]

/-- C9 witness: a project with no manifest at all scans successfully. -/
theorem c9_witness :
    (Scanner.scan ({ manifest := none } : Scanner.Project)).isOk = true :=
  c9_amended.1 { manifest := none } (by simp)

/-- C10 counterexample: a `use` and a `get` registration of the same path in
one file have distinct found-set keys (the key uses the pre-downgrade
method), yet both emitted routes carry method `GET`, so the extractor does
return two routes with the same (uppercased method, normalized path). -/
theorem c10_counterexample :
    (Express.extractExpressRoutes "server.js"
      [["db.use", "db", "use", "/api/x"], ["db.get", "db", "get", "/api/x"]]).map
      (fun r => (r.method, r.url)) =
      [("GET", "/api/x"), ("GET", "/api/x")] := by decide

/-- C10 amended: within one file, two emitted routes can share (method, url)
only when that method is `GET` (the `use`-to-`GET` downgrade is the sole
collision source, since the found-set key uses the original method); and a
registration whose path normalizes to `null` (the empty path) produces no
route. -/
theorem c10_amended :
    (∀ fn ms, List.Pairwise rrGetOnly (Express.extractExpressRoutes fn ms)) ∧
    Express.normalizeExpressRoutePath "" = none ∧
    Express.extractExpressRoutes "server.js" [["db.get", "db", "get", ""]] = [] := by
  exact ⟨extract_pairwise, rfl, rfl⟩
